import Mathlib

/-
Verification of the rlm_bridge server core logic (src/rlm_bridge/server.py).

The Python code is dynamically typed, so the embedding carries a JSON-like
value type `JsonVal` for every place where a request field may hold an
arbitrary value, and `Except PyError` for code paths that can raise.
Python exceptions that matter here are AttributeError (attribute access on
a value that lacks it, e.g. `role.upper()` on an int) and TypeError
(slicing an unsubscriptable value); any exception raised by the RLM engine
is modelled as an opaque `exception` carrying its message (`str(e)`).

Strings: Python `str` is a sequence of code points, as is Lean `String`,
so `query[:100]` is `String.take 100` and `"\n\n".join` is
`String.intercalate`.  `str.upper` is modelled by `strUpper` below
(ASCII uppercasing; the roles appearing in the bridge protocol are ASCII).
-/

/-- JSON-like runtime values, covering everything a decoded request body
(and any field inside it) can be. Numbers are modelled as integers; no
claim depends on float payloads. -/
inductive JsonVal where
  | null
  | bool (b : Bool)
  | num (n : Int)
  | str (s : String)
  | arr (elems : List JsonVal)
  | obj (fields : List (String × JsonVal))

/-- Python type name of a value, as it appears in CPython error messages. -/
def typeName : JsonVal → String
  | .null => "NoneType"
  | .bool _ => "bool"
  | .num _ => "int"
  | .str _ => "str"
  | .arr _ => "list"
  | .obj _ => "dict"

/-- Python truthiness (`bool(v)`) for JSON values: None, False, 0, "",
[] and {} are falsy, everything else truthy. -/
def JsonVal.falsy : JsonVal → Bool
  | .null => true
  | .bool b => !b
  | .num n => n == 0
  | .str s => s == ""
  | .arr xs => xs.isEmpty
  | .obj fs => fs.isEmpty

/-- Truthiness of the result of `request.get_json()`, which may be absent
(`None`, modelled as `none`). -/
def pyFalsyOpt : Option JsonVal → Bool
  | none => true
  | some v => v.falsy

mutual
/-- Python `repr()` of a JSON value (string escaping inside quotes is not
reproduced; no claim depends on it). -/
def pyRepr : JsonVal → String
  | .null => "None"
  | .bool b => if b then "True" else "False"
  | .num n => toString n
  | .str s => "\x27" ++ s ++ "\x27"
  | .arr xs => "[" ++ pyReprSeq xs ++ "]"
  | .obj fs => "\x7b" ++ pyReprFields fs ++ "\x7d"

/-- Comma-separated `repr`s of a list's elements. -/
def pyReprSeq : List JsonVal → String
  | [] => ""
  | x :: rest => pyRepr x ++ (if rest.isEmpty then "" else ", ") ++ pyReprSeq rest

/-- Comma-separated `'key': repr(value)` renderings of a dict's items. -/
def pyReprFields : List (String × JsonVal) → String
  | [] => ""
  | (k, v) :: rest =>
      "\x27" ++ k ++ "\x27: " ++ pyRepr v ++ (if rest.isEmpty then "" else ", ") ++
        pyReprFields rest
end

/-- Python `str()` of a JSON value (used by f-string interpolation). -/
def pyStr : JsonVal → String
  | .str s => s
  | v => pyRepr v

/-- Python `s.upper()`: uppercase every character (ASCII model).  Defined
by a structural map over the character list so that concrete instances
evaluate inside proofs. -/
def strUpper (s : String) : String := ⟨s.data.map Char.toUpper⟩

/-- Python exceptions relevant to the bridge. `str(e)` is the carried
message in every case. -/
inductive PyError where
  | attributeError (msg : String)
  | typeError (msg : String)
  | exception (msg : String)

/-- The message of an exception, i.e. Python `str(e)`. -/
def PyError.message : PyError → String
  | .attributeError m => m
  | .typeError m => m
  | .exception m => m

/-- Python `v.get(key, dflt)`: succeeds on dicts (first binding of the key
wins; decoded JSON objects have distinct keys), raises AttributeError on
any other value, exactly as `data.get(...)` does in the endpoint. -/
def pyDictGet (v : JsonVal) (key : String) (dflt : JsonVal) : Except PyError JsonVal :=
  match v with
  | .obj fields => .ok ((fields.lookup key).getD dflt)
  | _ => .error (.attributeError ("\x27" ++ typeName v ++ "\x27 object has no attribute \x27get\x27"))

/-! ### The Context Splitter, at the data-model typing level

Spec section 3 types a message as an object with optional string fields
`role` and `content`.  `messages_to_context` is server.py lines 62-85
restricted to such messages: `msg.get("role", "user")`/`msg.get("content", "")`
become `Option.getD`, the `for` loop over `messages[:-1]` becomes a `map`
over `dropLast`, and `messages[-1]` under the non-emptiness guard becomes
the `getLast?` match. -/

/-- A message of the data model: an object whose `role`/`content` fields,
when present, are strings. -/
structure Message where
  role : Option String := none
  content : Option String := none

/-- Rendering of one history message, `f"[{role.upper()}]: {content}"`
with the source's defaults. -/
def renderMessage (msg : Message) : String :=
  "[" ++ strUpper (msg.role.getD "user") ++ "]: " ++ msg.content.getD ""

/-- server.py `messages_to_context` (lines 62-85) on data-model messages. -/
def messages_to_context (messages : List Message) : String × String :=
  match messages.getLast? with
  | none => ("", "")
  | some last =>
      ("\n\n".intercalate (messages.dropLast.map renderMessage),
       last.content.getD "")

/-! ### The Context Splitter on raw JSON values

The same source lines without the data-model typing assumption: each
element of `messages` may be any value, and fields may hold any value.
`role.upper()` raises AttributeError when `role` is not a string; the
f-string stringifies `content` whatever it is. -/

/-- One iteration of the context loop (server.py lines 74-77) on a raw
message value. -/
def renderPart (msg : JsonVal) : Except PyError String :=
  match pyDictGet msg "role" (.str "user") with
  | .error e => .error e
  | .ok role =>
    match pyDictGet msg "content" (.str "") with
    | .error e => .error e
    | .ok content =>
      match role with
      | .str r => .ok ("[" ++ strUpper r ++ "]: " ++ pyStr content)
      | v => .error (.attributeError
          ("\x27" ++ typeName v ++ "\x27 object has no attribute \x27upper\x27"))

/-- The context loop: renders messages in order, stopping at the first
raised exception, like the Python `for` loop. -/
def renderParts : List JsonVal → Except PyError (List String)
  | [] => .ok []
  | msg :: rest =>
    match renderPart msg with
    | .error e => .error e
    | .ok s =>
      match renderParts rest with
      | .error e => .error e
      | .ok ss => .ok (s :: ss)

/-- server.py `messages_to_context` (lines 62-85) on a raw list of JSON
values: context parts are built first (possibly raising), then the last
message's `content` is fetched (possibly raising). -/
def messages_to_context_json (messages : List JsonVal) : Except PyError (String × JsonVal) :=
  match messages.getLast? with
  | none => .ok ("", .str "")
  | some last =>
    match renderParts messages.dropLast with
    | .error e => .error e
    | .ok parts =>
      match pyDictGet last "content" (.str "") with
      | .error e => .error e
      | .ok query => .ok ("\n\n".intercalate parts, query)

/-- What the endpoint does when the decoded `messages` value is not a
list: slicing via `messages[:-1]` (or `.get` on the elements of a string)
raises.  Only reachable for truthy values; CPython messages are
reproduced per type. -/
def messages_dispatch : JsonVal → Except PyError (String × JsonVal)
  | .arr xs => messages_to_context_json xs
  | .str _ => .error (.attributeError "\x27str\x27 object has no attribute \x27get\x27")
  | .obj _ => .error (.typeError "unhashable type: \x27slice\x27")
  | v => .error (.typeError ("\x27" ++ typeName v ++ "\x27 object is not subscriptable"))

/-- A raw message value on which the splitter cannot raise: an object
whose `role` field, if present, is a string.  (`content` may be anything:
it is only ever stringified or returned.) -/
def wellFormedMsg : JsonVal → Bool
  | .obj fields =>
      match fields.lookup "role" with
      | some (.str _) => true
      | some _ => false
      | none => true
  | _ => false

/-- Whether a computation that may raise returned normally. -/
def exceptIsOk {e a : Type} : Except e a → Bool
  | .ok _ => true
  | .error _ => false

/-- Encoding of a data-model message as the raw JSON object it decodes
from (absent optional fields are absent keys). -/
def Message.encode (m : Message) : JsonVal :=
  .obj ((match m.role with | some r => [("role", JsonVal.str r)] | none => []) ++
        (match m.content with | some c => [("content", JsonVal.str c)] | none => []))

/-! ### The Completion Invoker

`run_rlm_completion` (server.py lines 88-142).  The RLM library is an
external collaborator: the bridge either fails to import it
(`Engine.unavailable`, the `except ImportError` path) or obtains an
engine, modelled as a function from the constructor arguments of
`RLM(...)` (lines 98-105) and the prompt to either a result object or a
raised exception.  Only `ImportError` is downgraded to the mock response;
every other exception escapes the `try` via the bare `raise`
(lines 140-142), which `Except.map` reproduces. -/

/-- The keyword arguments of `RLM(backend=..., backend_kwargs={"model_name": ...},
max_recursion_depth=...)`.  The request's `environment` field is not among
them (server.py line 104 is only a comment). -/
structure EngineCtorArgs where
  backend : JsonVal
  model_name : JsonVal
  max_recursion_depth : JsonVal

/-- The engine's result object, with the optional attributes the bridge
probes via `getattr(result, _, default)`. -/
structure EngineResult where
  response : String
  prompt_tokens : Option Int := none
  completion_tokens : Option Int := none
  recursion_depth : Option Int := none
  total_calls : Option Int := none

/-- The runtime state of the RLM dependency: absent, or present as an
opaque construct-and-complete procedure that may raise. -/
inductive Engine where
  | unavailable
  | available (run : EngineCtorArgs → JsonVal → Except PyError EngineResult)

/-- The `RlmConfig` dataclass (server.py lines 37-43).  Fields hold raw
JSON values because the endpoint stores whatever the request supplied,
without validation. -/
structure RlmConfig where
  backend : JsonVal
  model_name : JsonVal
  max_recursion_depth : JsonVal
  environment : JsonVal

/-- The constructor arguments the bridge passes to `RLM(...)`
(server.py lines 98-105): everything in the config except `environment`. -/
def ctorArgs (config : RlmConfig) : EngineCtorArgs :=
  { backend := config.backend
    model_name := config.model_name
    max_recursion_depth := config.max_recursion_depth }

/-- The `CompletionResponse` dataclass (server.py lines 54-59): `usage`
and `metadata` are optional dicts. -/
structure CompletionResponse where
  text : String
  usage : Option (List (String × JsonVal)) := none
  metadata : Option (List (String × JsonVal)) := none

/-- Prompt assembly (server.py lines 107-116): the two-section f-string
when `context` is truthy, the raw query value otherwise. -/
def full_prompt (context : String) (query : JsonVal) : JsonVal :=
  if context ≠ "" then
    .str ("Previous conversation context:\n" ++ context ++
          "\n\nCurrent request:\n" ++ pyStr query)
  else query

/-- The effective prompt as the spec words it: when context is empty the
prompt is the query alone; otherwise the fixed two-section template with
context and query embedded verbatim. -/
def effectivePromptSpec (context : String) (query : JsonVal) : JsonVal :=
  if context = "" then query
  else
    .str ("Previous conversation context:\n" ++ context ++
          "\n\nCurrent request:\n" ++ pyStr query)

/-- Python `query[:100]`: defined for sequences (strings and lists),
a TypeError for anything else. -/
def pySlice100 : JsonVal → Except PyError JsonVal
  | .str s => .ok (.str (s.take 100))
  | .arr xs => .ok (.arr (xs.take 100))
  | v => .error (.typeError ("\x27" ++ typeName v ++ "\x27 object is not subscriptable"))

/-- Success mapping (server.py lines 121-131): `getattr(result, _, 0)`
resp. `getattr(result, _, 1)` become `Option.getD`. -/
def mapEngineResult (result : EngineResult) : CompletionResponse :=
  { text := result.response
    usage := some [("promptTokens", .num (result.prompt_tokens.getD 0)),
                   ("completionTokens", .num (result.completion_tokens.getD 0))]
    metadata := some [("recursionDepth", .num (result.recursion_depth.getD 0)),
                      ("totalCalls", .num (result.total_calls.getD 1))] }

/-- server.py `run_rlm_completion` (lines 88-142). -/
def run_rlm_completion (engine : Engine) (context : String) (query : JsonVal)
    (config : RlmConfig) : Except PyError CompletionResponse :=
  match engine with
  | .available run =>
      Except.map mapEngineResult (run (ctorArgs config) (full_prompt context query))
  | .unavailable =>
      match pySlice100 query with
      | .error e => .error e
      | .ok sliced =>
          .ok { text := "[RLM MOCK] Would process query: " ++ pyStr sliced ++ "..."
                usage := none
                metadata := some [("mock", .bool true)] }

/-! ### The Request/Response Envelope and the completion endpoint -/

/-- The process-wide defaults read from the environment at startup
(server.py lines 32-34). -/
structure ServerDefaults where
  DEFAULT_BACKEND : String
  DEFAULT_MODEL : String
  DEFAULT_MAX_RECURSION : Int

/-- Config decoding (server.py lines 183-189): four independent
`rlm_config_data.get(key, default)` calls, evaluated in source order. -/
def parse_config (d : ServerDefaults) (rlm_config_data : JsonVal) : Except PyError RlmConfig :=
  match pyDictGet rlm_config_data "backend" (.str d.DEFAULT_BACKEND) with
  | .error e => .error e
  | .ok backend =>
    match pyDictGet rlm_config_data "modelName" (.str d.DEFAULT_MODEL) with
    | .error e => .error e
    | .ok model_name =>
      match pyDictGet rlm_config_data "maxRecursionDepth" (.num d.DEFAULT_MAX_RECURSION) with
      | .error e => .error e
      | .ok max_recursion_depth =>
        match pyDictGet rlm_config_data "environment" (.str "local") with
        | .error e => .error e
        | .ok environment =>
            .ok { backend, model_name, max_recursion_depth, environment }

/-- An HTTP response: status code and JSON-object body. -/
structure HttpResponse where
  status : Nat
  body : List (String × JsonVal)

/-- `jsonify(asdict(response))` (server.py line 199): direct structural
serialization, `None` for absent optional dicts. -/
def encodeResponse (r : CompletionResponse) : List (String × JsonVal) :=
  [("text", .str r.text),
   ("usage", match r.usage with | some u => .obj u | none => .null),
   ("metadata", match r.metadata with | some m => .obj m | none => .null)]

/-- The body of the `try` block of the completion endpoint (server.py
lines 172-199).  `data` is the value returned by `request.get_json()`,
modelled as an already-decoded optional JSON value (`none` = no body).
The early 400 returns are ordinary returns, not exceptions. -/
def completion_body (d : ServerDefaults) (engine : Engine) (data : Option JsonVal) :
    Except PyError HttpResponse :=
  match data with
  | none => .ok { status := 400, body := [("error", .str "No JSON body provided")] }
  | some dv =>
    if dv.falsy then
      .ok { status := 400, body := [("error", .str "No JSON body provided")] }
    else
      match pyDictGet dv "messages" (.arr []) with
      | .error e => .error e
      | .ok messages =>
        if messages.falsy then
          .ok { status := 400, body := [("error", .str "No messages provided")] }
        else
          match pyDictGet dv "rlmConfig" (.obj []) with
          | .error e => .error e
          | .ok rlm_config_data =>
            match parse_config d rlm_config_data with
            | .error e => .error e
            | .ok config =>
              match messages_dispatch messages with
              | .error e => .error e
              | .ok cq =>
                match run_rlm_completion engine cq.1 cq.2 config with
                | .error e => .error e
                | .ok response =>
                    .ok { status := 200, body := encodeResponse response }

/-- The completion endpoint (server.py lines 165-203): the `try` body,
with `except Exception as e: return jsonify({"error": str(e)}), 500`. -/
def completion (d : ServerDefaults) (engine : Engine) (data : Option JsonVal) : HttpResponse :=
  match completion_body d engine data with
  | .ok resp => resp
  | .error e => { status := 500, body := [("error", .str e.message)] }

/-! ### Concrete instances used by witnesses and counterexamples -/

/-- The startup defaults when no overriding environment variables are set
(server.py lines 32-34). -/
def d0 : ServerDefaults :=
  { DEFAULT_BACKEND := "openai", DEFAULT_MODEL := "gpt-4o-mini", DEFAULT_MAX_RECURSION := 10 }

/-- A concrete config with `environment = "local"`. -/
def cfgLocal : RlmConfig :=
  { backend := .str "openai", model_name := .str "gpt-4o-mini"
    max_recursion_depth := .num 10, environment := .str "local" }

/-- The same config with `environment = "docker"`. -/
def cfgDocker : RlmConfig :=
  { backend := .str "openai", model_name := .str "gpt-4o-mini"
    max_recursion_depth := .num 10, environment := .str "docker" }

/-! ## Helper lemmas -/

/-- On the encoding of a data-model message, the raw renderer returns
normally with exactly the typed rendering. -/
theorem renderPart_encode (m : Message) : renderPart m.encode = .ok (renderMessage m) := by
  obtain ⟨r, c⟩ := m
  cases r <;> cases c <;> rfl

/-- The raw context loop on encoded data-model messages returns the typed
renderings in order. -/
theorem renderParts_encode (l : List Message) :
    renderParts (l.map Message.encode) = .ok (l.map renderMessage) := by
  induction l with
  | nil => rfl
  | cons m rest ih => simp [renderParts, renderPart_encode, ih]

/-- Fetching `content` from an encoded data-model message returns a
string: the content with the source's default. -/
theorem content_get_encode (m : Message) :
    pyDictGet m.encode "content" (.str "") = .ok (.str (m.content.getD "")) := by
  obtain ⟨r, c⟩ := m
  cases r <;> cases c <;> rfl

/-- The raw splitter and the data-model splitter agree on data-model
messages: the two embeddings of server.py lines 62-85 compute the same
context and query. -/
theorem messages_to_context_json_encode (l : List Message) :
    messages_to_context_json (l.map Message.encode)
      = .ok ((messages_to_context l).1, .str (messages_to_context l).2) := by
  induction l using List.reverseRecOn with
  | nil => rfl
  | append_singleton init last _ =>
      simp only [List.map_append, List.map_cons, List.map_nil]
      rw [messages_to_context_json, messages_to_context]
      rw [List.getLast?_concat, List.getLast?_concat, List.dropLast_concat, List.dropLast_concat]
      simp [renderParts_encode, content_get_encode]

/-- A well-formed raw message renders without raising. -/
theorem renderPart_isOk (m : JsonVal) (h : wellFormedMsg m = true) :
    exceptIsOk (renderPart m) = true := by
  cases m with
  | obj fields =>
      cases hr : fields.lookup "role" with
      | none => simp [renderPart, pyDictGet, hr, exceptIsOk]
      | some v =>
          cases v <;> simp [renderPart, pyDictGet, hr, exceptIsOk] <;>
            simp [wellFormedMsg, hr] at h
  | null => simp [wellFormedMsg] at h
  | bool b => simp [wellFormedMsg] at h
  | num n => simp [wellFormedMsg] at h
  | str s => simp [wellFormedMsg] at h
  | arr xs => simp [wellFormedMsg] at h

/-- The context loop raises on no list of well-formed raw messages. -/
theorem renderParts_isOk (l : List JsonVal) (h : ∀ m ∈ l, wellFormedMsg m = true) :
    exceptIsOk (renderParts l) = true := by
  induction l with
  | nil => rfl
  | cons m rest ih =>
      have hm := renderPart_isOk m (h m (List.mem_cons_self m rest))
      have hrest := ih (fun x hx => h x (List.mem_cons_of_mem m hx))
      cases hp : renderPart m with
      | error e => rw [hp] at hm; simp [exceptIsOk] at hm
      | ok s =>
          cases hps : renderParts rest with
          | error e => rw [hps] at hrest; simp [exceptIsOk] at hrest
          | ok ss => simp [renderParts, hp, hps, exceptIsOk]

/-! ## Claims -/

/-- C1: for every message sequence, `split` returns `("", "")` on the
empty sequence; on `init ++ [last]` the query is the last message's
content (empty when absent) and the context is the rendering
`"[" ++ uppercased role ++ "]: " ++ content` of each earlier message
(role defaulting to `"user"`, content to `""`), joined in original order
by a double newline; a single-message sequence yields context `""` and
query equal to that message's content. -/
theorem C1_split_behavior :
    messages_to_context [] = ("", "") ∧
    (∀ (init : List Message) (last : Message),
      messages_to_context (init ++ [last])
        = ("\n\n".intercalate (init.map (fun m =>
             "[" ++ strUpper (m.role.getD "user") ++ "]: " ++ m.content.getD "")),
           last.content.getD "")) ∧
    (∀ m : Message, messages_to_context [m] = ("", m.content.getD "")) := by
  refine ⟨rfl, ?_, fun m => rfl⟩
  intro init last
  rw [messages_to_context, List.getLast?_concat, List.dropLast_concat]
  rfl

/-- C2: when the engine is unavailable, `invoke` does not fail: it
returns the mock response whose text is the mock marker followed by
exactly the first 100 characters of the query (and a trailing `"..."`),
whose metadata is exactly the singleton `mock: true`, and which has no
usage. -/
theorem C2_mock_fallback (context query : String) (config : RlmConfig) :
    run_rlm_completion .unavailable context (.str query) config
      = .ok { text := "[RLM MOCK] Would process query: " ++ query.take 100 ++ "..."
              usage := none
              metadata := some [("mock", .bool true)] } := rfl

/-- C3: for every engine procedure, context, query and config, the
invoker calls the engine exactly once, constructed from the config's
engine arguments, on the spec's effective prompt: the two-section
template when the context is non-empty, the query alone when it is
empty. -/
theorem C3_effective_prompt (run : EngineCtorArgs → JsonVal → Except PyError EngineResult)
    (context : String) (query : JsonVal) (config : RlmConfig) :
    run_rlm_completion (.available run) context query config
      = Except.map mapEngineResult (run (ctorArgs config) (effectivePromptSpec context query)) := by
  have h : full_prompt context query = effectivePromptSpec context query := by
    rw [full_prompt, effectivePromptSpec]
    by_cases hc : context = "" <;> simp [hc]
  rw [run_rlm_completion, h]

set_option maxRecDepth 8000 in
/-- C4: a failure raised by the engine during invocation is propagated by
the invoker unchanged (never converted to a mock response), and the
completion endpoint maps such a propagated failure on an otherwise valid
request to HTTP 500 with a body holding the single error string
`str(e)`. -/
theorem C4_engine_failure_propagation (d : ServerDefaults) (em role content : String) :
    (∀ (run : EngineCtorArgs → JsonVal → Except PyError EngineResult)
       (ctx : String) (q : JsonVal) (cfg : RlmConfig) (e : PyError),
       run (ctorArgs cfg) (full_prompt ctx q) = .error e →
       run_rlm_completion (.available run) ctx q cfg = .error e) ∧
    completion d (.available fun _ _ => .error (.exception em))
        (some (.obj [("messages",
           .arr [.obj [("role", .str role), ("content", .str content)]])]))
      = { status := 500, body := [("error", .str em)] } := by
  constructor
  · intro run ctx q cfg e h
    rw [run_rlm_completion, h]
    rfl
  · rfl

/-- C4 witness: the propagation theorem applied at a concrete engine
failure and request. -/
theorem C4_engine_failure_propagation_witness :
    run_rlm_completion (.available fun _ _ => .error (.exception "boom")) "" (.str "q") cfgLocal
        = .error (.exception "boom") ∧
    completion d0 (.available fun _ _ => .error (.exception "boom"))
        (some (.obj [("messages",
           .arr [.obj [("role", .str "user"), ("content", .str "hi")]])]))
      = { status := 500, body := [("error", .str "boom")] } :=
  ⟨(C4_engine_failure_propagation d0 "boom" "user" "hi").1
      (fun _ _ => .error (.exception "boom")) "" (.str "q") cfgLocal (.exception "boom") rfl,
   (C4_engine_failure_propagation d0 "boom" "user" "hi").2⟩

/-- C5: a successful engine result lacking all four optional reported
fields maps, without failing, to `usage = (promptTokens 0, completionTokens 0)`
and `metadata = (recursionDepth 0, totalCalls 1)`. -/
theorem C5_success_mapping_defaults (ctx : String) (q : JsonVal) (cfg : RlmConfig)
    (r : EngineResult) (h1 : r.prompt_tokens = none) (h2 : r.completion_tokens = none)
    (h3 : r.recursion_depth = none) (h4 : r.total_calls = none) :
    run_rlm_completion (.available fun _ _ => .ok r) ctx q cfg
      = .ok { text := r.response
              usage := some [("promptTokens", .num 0), ("completionTokens", .num 0)]
              metadata := some [("recursionDepth", .num 0), ("totalCalls", .num 1)] } := by
  rw [run_rlm_completion]
  simp [Except.map, mapEngineResult, h1, h2, h3, h4]

/-- C5 witness: the defaulting theorem applied at an engine result
carrying only its text. -/
theorem C5_success_mapping_defaults_witness :
    run_rlm_completion (.available fun _ _ => .ok { response := "done" }) "" (.str "q") cfgLocal
      = .ok { text := "done"
              usage := some [("promptTokens", .num 0), ("completionTokens", .num 0)]
              metadata := some [("recursionDepth", .num 0), ("totalCalls", .num 1)] } :=
  C5_success_mapping_defaults "" (.str "q") cfgLocal { response := "done" } rfl rfl rfl rfl

/-- C6 counterexample: a request whose body is the empty JSON object has
no `messages` array, yet the endpoint answers with the empty-body error,
not the no-messages error the claim requires for every request lacking
`messages`. -/
theorem C6_request_validation_counterexample :
    completion d0 .unavailable (some (.obj []))
        = { status := 400, body := [("error", .str "No JSON body provided")] } ∧
    completion d0 .unavailable (some (.obj []))
        ≠ { status := 400, body := [("error", .str "No messages provided")] } := by
  have hred : completion d0 .unavailable (some (.obj []))
      = { status := 400, body := [("error", .str "No JSON body provided")] } := rfl
  refine ⟨hred, ?_⟩
  rw [hred]
  simp

/-- C6 amended: a request with no body is rejected with HTTP 400 and the
empty-body error; a request whose body is a NON-EMPTY JSON object in
which `messages` is absent, or is present as the empty array, is
rejected with HTTP 400 and the no-messages error.  (A present-but-empty
object body gets the empty-body error instead — see C10.)  The engine is
universally quantified, so no engine invocation influences either
rejection. -/
theorem C6_request_validation_amended (d : ServerDefaults) (engine : Engine) :
    completion d engine none
      = { status := 400, body := [("error", .str "No JSON body provided")] } ∧
    (∀ fs : List (String × JsonVal), fs ≠ [] → fs.lookup "messages" = none →
      completion d engine (some (.obj fs))
        = { status := 400, body := [("error", .str "No messages provided")] }) ∧
    (∀ fs : List (String × JsonVal), fs.lookup "messages" = some (.arr []) →
      completion d engine (some (.obj fs))
        = { status := 400, body := [("error", .str "No messages provided")] }) := by
  refine ⟨rfl, ?_, ?_⟩
  · intro fs hne hlk
    cases fs with
    | nil => exact absurd rfl hne
    | cons p rest =>
        simp [completion, completion_body, JsonVal.falsy, pyDictGet, hlk]
  · intro fs hlk
    cases fs with
    | nil => simp at hlk
    | cons p rest =>
        simp [completion, completion_body, JsonVal.falsy, pyDictGet, hlk]

/-- C6 witness: the amended rejections at a concrete defaults/engine pair,
one request lacking `messages` and one carrying an empty `messages`
array. -/
theorem C6_request_validation_amended_witness :
    completion d0 .unavailable (some (.obj [("foo", .num 1)]))
      = { status := 400, body := [("error", .str "No messages provided")] } ∧
    completion d0 .unavailable (some (.obj [("messages", .arr [])]))
      = { status := 400, body := [("error", .str "No messages provided")] } :=
  ⟨(C6_request_validation_amended d0 .unavailable).2.1 [("foo", .num 1)]
      (List.cons_ne_nil _ _) rfl,
   (C6_request_validation_amended d0 .unavailable).2.2 [("messages", .arr [])] rfl⟩

/-- C7: config decoding defaults each of the four fields independently of
the others — the decoded value of each field is a function of that
field's key alone, with the process-wide default when the key is absent —
and decoding an empty config object yields the process-wide defaults in
every field (`environment` defaulting to `"local"`). -/
theorem C7_config_defaulting (d : ServerDefaults) (fs : List (String × JsonVal)) :
    parse_config d (.obj fs)
      = .ok { backend := (fs.lookup "backend").getD (.str d.DEFAULT_BACKEND)
              model_name := (fs.lookup "modelName").getD (.str d.DEFAULT_MODEL)
              max_recursion_depth :=
                (fs.lookup "maxRecursionDepth").getD (.num d.DEFAULT_MAX_RECURSION)
              environment := (fs.lookup "environment").getD (.str "local") } ∧
    parse_config d (.obj [])
      = .ok { backend := .str d.DEFAULT_BACKEND
              model_name := .str d.DEFAULT_MODEL
              max_recursion_depth := .num d.DEFAULT_MAX_RECURSION
              environment := .str "local" } := ⟨rfl, rfl⟩

/-- C8 counterexample: a message whose `role` field holds the integer 1
makes `split` raise AttributeError (from `role.upper()`) instead of
coercing the malformed field to a default, so `split` is not total over
malformed fields. -/
theorem C8_split_totality_counterexample :
    messages_to_context_json
        [.obj [("role", .num 1), ("content", .str "hi")], .obj [("content", .str "q")]]
      = .error (.attributeError "\x27int\x27 object has no attribute \x27upper\x27") := rfl

/-- C8 amended: `split` is total (pure, no I/O, never raises) on message
sequences whose elements are objects whose `role` field, when present, is
a string; absent fields are coerced to their defaults (role `"user"`,
content `""`); but a present non-string role raises AttributeError
instead of being coerced. -/
theorem C8_split_totality_amended :
    (∀ messages : List JsonVal, messages.all wellFormedMsg = true →
        exceptIsOk (messages_to_context_json messages) = true) ∧
    messages_to_context_json [.obj [], .obj []] = .ok ("[USER]: ", .str "") ∧
    messages_to_context_json [.obj [("role", .num 1)], .obj []]
      = .error (.attributeError "\x27int\x27 object has no attribute \x27upper\x27") := by
  refine ⟨?_, rfl, rfl⟩
  intro messages hall
  have hmem : ∀ m ∈ messages, wellFormedMsg m = true := by
    simpa [List.all_eq_true] using hall
  cases hl : messages.getLast? with
  | none => simp [messages_to_context_json, hl, exceptIsOk]
  | some last =>
      have hparts : exceptIsOk (renderParts messages.dropLast) = true :=
        renderParts_isOk _ (fun m hm => hmem m (List.dropLast_subset messages hm))
      have hlastwf : wellFormedMsg last = true :=
        hmem last (List.mem_of_getLast?_eq_some hl)
      cases hps : renderParts messages.dropLast with
      | error e => rw [hps] at hparts; simp [exceptIsOk] at hparts
      | ok parts =>
          cases last with
          | obj fs => simp [messages_to_context_json, hl, hps, pyDictGet, exceptIsOk]
          | null => simp [wellFormedMsg] at hlastwf
          | bool b => simp [wellFormedMsg] at hlastwf
          | num n => simp [wellFormedMsg] at hlastwf
          | str s => simp [wellFormedMsg] at hlastwf
          | arr xs => simp [wellFormedMsg] at hlastwf

/-- C8 witness: the amended totality applied to a concrete two-message
sequence with string roles. -/
theorem C8_split_totality_amended_witness :
    exceptIsOk (messages_to_context_json
      [.obj [("role", .str "assistant"), ("content", .str "hey")],
       .obj [("content", .str "yo")]]) = true :=
  C8_split_totality_amended.1
    [.obj [("role", .str "assistant"), ("content", .str "hey")],
     .obj [("content", .str "yo")]] (by decide)

/-- C9: two configs differing only in `environment` produce the same
engine constructor arguments and the same invocation result, for every
engine, context and query: the `environment` field is never consulted. -/
theorem C9_environment_no_influence (engine : Engine) (ctx : String) (q : JsonVal)
    (c1 c2 : RlmConfig) (hb : c1.backend = c2.backend) (hm : c1.model_name = c2.model_name)
    (hr : c1.max_recursion_depth = c2.max_recursion_depth) :
    ctorArgs c1 = ctorArgs c2 ∧
    run_rlm_completion engine ctx q c1 = run_rlm_completion engine ctx q c2 := by
  have hargs : ctorArgs c1 = ctorArgs c2 := by
    rw [ctorArgs, ctorArgs, hb, hm, hr]
  refine ⟨hargs, ?_⟩
  cases engine with
  | unavailable => rfl
  | available run => rw [run_rlm_completion, run_rlm_completion, hargs]

/-- C9 witness: the environment-independence theorem applied at two
concrete configs differing only in `environment` (`local` vs `docker`). -/
theorem C9_environment_no_influence_witness :
    ctorArgs cfgLocal = ctorArgs cfgDocker ∧
    run_rlm_completion .unavailable "" (.str "q") cfgLocal
      = run_rlm_completion .unavailable "" (.str "q") cfgDocker :=
  C9_environment_no_influence .unavailable "" (.str "q") cfgLocal cfgDocker rfl rfl rfl

/-- C10: a request whose body is the empty JSON object is rejected with
the empty-body error (HTTP 400, error `"No JSON body provided"`), and
the endpoint's answer on it is identical to its answer on an absent
body: the falsiness test does not distinguish the two. -/
theorem C10_empty_object_body (d : ServerDefaults) (engine : Engine) :
    completion d engine (some (.obj []))
      = { status := 400, body := [("error", .str "No JSON body provided")] } ∧
    completion d engine (some (.obj [])) = completion d engine none := ⟨rfl, rfl⟩
